import Mathlib

/-!
Verification of the gateway-xds-generator repository against its
natural-language specification.

The repository's `main.go` is embedded directly: its control flow is a
straight-line sequence of fallible steps, each either continuing or printing
an error and exiting, so it is modelled as a function from an environment of
step outcomes to a final process result.  The `pkg/translator` package is not
part of the provided sources; the definitions that stand in for it are
modelled from the specification (each such definition says so in its doc
comment).
-/

set_option maxRecDepth 4096

/-- The indexed Kubernetes collections the system reads (spec section 6). -/
inductive Collection where
  | namespaces
  | services
  | secrets
  | gateways
  | httpRoutes
  | referenceGrants
deriving DecidableEq, Repr

/-- The collections whose informer `HasSynced` is passed to
`WaitForNamedCacheSync` in `main.go` (lines 82-90).  The entries for
Namespaces, Secrets and ReferenceGrants are commented out in the source, so
only these three are waited on. -/
def syncWaitedCollections : List Collection :=
  [Collection.services, Collection.gateways, Collection.httpRoutes]

/-- The collections whose listers `main.go` hands to `translator.New`
(lines 93-102): all six. -/
def translatorListerCollections : List Collection :=
  [Collection.namespaces, Collection.services, Collection.secrets,
   Collection.gateways, Collection.httpRoutes, Collection.referenceGrants]

/-- The ordered sequence of steps `main` performs after the informer
factories are created (from the source order of `main.go`). -/
inductive MainStep where
  | startInformers
  | waitForCacheSync
  | newTranslator
  | translateGateway
  | buildSnapshot
  | checkConsistent
  | marshalOutput
  | writeOutput
deriving DecidableEq, BEq, Repr

/-- Program order of the steps in `main.go`. -/
def mainStepOrder : List MainStep :=
  [MainStep.startInformers, MainStep.waitForCacheSync, MainStep.newTranslator,
   MainStep.translateGateway, MainStep.buildSnapshot, MainStep.checkConsistent,
   MainStep.marshalOutput, MainStep.writeOutput]

/-- Outcomes of every fallible step `main.go` performs, abstracted as
success flags.  Each field corresponds to one `err != nil` (or flag)
check in the source, in source order. -/
structure Env where
  flagsOk : Bool
  userOk : Bool
  configOk : Bool
  kubeClientOk : Bool
  gwClientOk : Bool
  gatewayGetOk : Bool
  translateOk : Bool
  snapshotOk : Bool
  consistentOk : Bool
  marshalOk : Bool
  writeOk : Bool
deriving DecidableEq, Repr

/-- Which error check caused the process to exit (one per `os.Exit(1)` site
in `main.go`; `insideGenerateXDS` is the `os.Exit(1)` inside `generateXDS`,
`generateXDSErrBranch` is `main`'s `if err != nil` after the call). -/
inductive ExitSite where
  | flags
  | userCurrent
  | buildConfig
  | gatewayClient
  | gatewayGet
  | translateErr
  | insideGenerateXDS
  | generateXDSErrBranch
  | consistent
  | marshal
  | writeFile
deriving DecidableEq, Repr

/-- How a call to `generateXDS` ends: either the process exits from inside
the function, or the function returns a value together with its error
result. -/
inductive GenResult (α : Type) where
  | exited (code : Nat)
  | returned (val : α) (err : Option String)
deriving DecidableEq, Repr

/-- Embedding of `generateXDS` (main.go lines 137-145) at the process
level: on a `cache.NewSnapshot` error it prints and calls `os.Exit(1)`;
otherwise it returns the snapshot and a `nil` error. -/
def generateXDSRun {α : Type} (r : Except String α) : GenResult α :=
  match r with
  | Except.error _ => GenResult.exited 1
  | Except.ok v => GenResult.returned v none

/-- Final observable result of running `main`. -/
structure MainResult where
  exited : Bool
  exitCode : Nat
  fileWritten : Bool
  kubeClientNil : Bool
  exitSite : Option ExitSite
deriving DecidableEq, Repr

/-- Result of an `os.Exit(1)` at the given site. -/
def exitWith (site : ExitSite) (kubeNil : Bool) : MainResult :=
  { exited := true, exitCode := 1, fileWritten := false,
    kubeClientNil := kubeNil, exitSite := some site }

/-- Embedding of `main` (main.go lines 34-135): the source-order sequence of
error checks.  Note that a `kubernetes.NewForConfig` failure only prints and
does not exit (lines 54-57), so execution continues with a nil client. -/
def runMain (e : Env) : MainResult :=
  if !e.flagsOk then exitWith ExitSite.flags false
  else if !e.userOk then exitWith ExitSite.userCurrent false
  else if !e.configOk then exitWith ExitSite.buildConfig false
  else
    let kubeNil := !e.kubeClientOk
    if !e.gwClientOk then exitWith ExitSite.gatewayClient kubeNil
    else if !e.gatewayGetOk then exitWith ExitSite.gatewayGet kubeNil
    else if !e.translateOk then exitWith ExitSite.translateErr kubeNil
    else
      match generateXDSRun (if e.snapshotOk then Except.ok () else Except.error "snapshot") with
      | GenResult.exited _ => exitWith ExitSite.insideGenerateXDS kubeNil
      | GenResult.returned _ err =>
        if err.isSome then exitWith ExitSite.generateXDSErrBranch kubeNil
        else if !e.consistentOk then exitWith ExitSite.consistent kubeNil
        else if !e.marshalOk then exitWith ExitSite.marshal kubeNil
        else if !e.writeOk then exitWith ExitSite.writeFile kubeNil
        else { exited := false, exitCode := 0, fileWritten := true,
               kubeClientNil := kubeNil, exitSite := none }

/-- Modelled from the spec: a Gateway listener spec (section 3) — name, port,
protocol, optional hostname, optional TLS certificate reference. -/
structure CertRef where
  ns : Option String
  name : String
deriving DecidableEq, Repr

/-- Modelled from the spec: one listener entry of a Gateway spec. -/
structure ListenerSpec where
  name : String
  port : Nat
  protocol : String
  hostname : Option String
  tls : Option CertRef
deriving DecidableEq, Repr

/-- Modelled from the spec: a Gateway (section 3). -/
structure Gateway where
  ns : String
  name : String
  listeners : List ListenerSpec
deriving DecidableEq, Repr

/-- Modelled from the spec: a parent reference of an HTTPRoute (which
Gateway/listener it attaches to). -/
structure ParentRef where
  ns : Option String
  name : String
  sectionName : Option String
deriving DecidableEq, Repr

/-- Modelled from the spec: a weighted backend reference of a route rule. -/
structure BackendRef where
  ns : Option String
  name : String
  port : Nat
  weight : Option Nat
deriving DecidableEq, Repr

/-- Modelled from the spec: the kind of an HTTP path match predicate. -/
inductive PathKind where
  | exactPath
  | startsWith
deriving DecidableEq, Repr

/-- Modelled from the spec: a route rule's match predicate (restricted to
the path component, which is all the verified claims exercise). -/
structure PathMatchSpec where
  kind : PathKind
  value : String
deriving DecidableEq, Repr

/-- Modelled from the spec: one rule of an HTTPRoute — a match predicate
and a list of weighted backend references. -/
structure RouteRule where
  pathMatch : PathMatchSpec
  backends : List BackendRef
deriving DecidableEq, Repr

/-- Modelled from the spec: an HTTPRoute (section 3). -/
structure HTTPRoute where
  ns : String
  name : String
  parentRefs : List ParentRef
  hostnames : List String
  rules : List RouteRule
deriving DecidableEq, Repr

/-- Modelled from the spec: a Service with its cluster-internal address and
ports (section 3). -/
structure Service where
  ns : String
  name : String
  clusterIP : String
  ports : List (String × Nat)
deriving DecidableEq, Repr

/-- Modelled from the spec: a Secret holding TLS material (opaque bytes to
this system). -/
structure Secret where
  ns : String
  name : String
  certChain : String
  privateKey : String
deriving DecidableEq, Repr

/-- Modelled from the spec: a ReferenceGrant — a namespace-scoped record
permitting (from-namespace, from-kind) to reference (to-kind, optional
to-name) objects in the grant's own namespace (sections 3 and 4.1). -/
structure ReferenceGrant where
  ns : String
  fromNamespace : String
  fromKind : String
  toKind : String
  toName : Option String
deriving DecidableEq, Repr

/-- Modelled from the spec: the point-in-time cached index of Kubernetes
objects the translator reads (section 5). -/
structure ClusterState where
  services : List Service
  secrets : List Secret
  httpRoutes : List HTTPRoute
  referenceGrants : List ReferenceGrant
deriving DecidableEq, Repr

/-- Modelled from the spec (section 4.1): whether a single ReferenceGrant
authorizes the reference — declared source namespace/kind equal
fromNS/fromKind, declared target kind equal toKind, and either no target
name or a target name equal to toName. -/
def grantMatches (fromNS fromKind toKind toName : String)
    (g : ReferenceGrant) : Bool :=
  g.fromNamespace == fromNS && g.fromKind == fromKind && g.toKind == toKind &&
    (g.toName.isNone || g.toName == some toName)

/-- Modelled from the spec (section 4.1): `Authorize` — same-namespace
references are always authorized without consulting grants; otherwise the
cached ReferenceGrants in the target namespace are scanned for a match. -/
def Authorize (grants : List ReferenceGrant)
    (fromNS fromKind toNS toKind toName : String) : Bool :=
  fromNS == toNS ||
    (grants.filter (fun g => g.ns == toNS)).any
      (grantMatches fromNS fromKind toKind toName)


/-- Modelled from the spec (section 4.4 / design notes): the deterministic
Cluster name derived from (service namespace, service name, port). -/
def clusterName (ns name : String) (port : Nat) : String :=
  ns ++ "/" ++ name ++ "/" ++ toString port

/-- Modelled from the spec (section 4.2): the deterministic
RouteConfiguration name derived from (gateway namespace, gateway name,
listener name). -/
def routeConfigName (gwNS gwName lisName : String) : String :=
  gwNS ++ "/" ++ gwName ++ "/" ++ lisName

/-- Modelled from the spec (section 4.2): the Envoy Listener name, after the
Gateway/listener pair. -/
def listenerResourceName (gwNS gwName lisName : String) : String :=
  gwNS ++ "/" ++ gwName ++ "/" ++ lisName ++ "/listener"

/-- Modelled from the spec (sections 3 and 4.2): a derived Envoy Listener —
bound to the declared port and protocol, referencing one RouteConfiguration
by name. -/
structure EnvoyListener where
  name : String
  port : Nat
  protocol : String
  routeConfig : String
deriving DecidableEq, Repr

/-- Modelled from the spec (section 4.2): build one Envoy Listener from one
Gateway listener spec, copying port and protocol verbatim. -/
def buildListener (gw : Gateway) (l : ListenerSpec) : EnvoyListener :=
  { name := listenerResourceName gw.ns gw.name l.name,
    port := l.port,
    protocol := l.protocol,
    routeConfig := routeConfigName gw.ns gw.name l.name }

/-- Modelled from the spec (sections 4.2 and 8): one Envoy Listener per
Gateway listener spec, in declaration order. -/
def buildListeners (gw : Gateway) : List EnvoyListener :=
  gw.listeners.map (buildListener gw)

/-- Modelled from the spec (section 4.3): a backend's effective weight —
carried through verbatim, with an omitted weight treated as 1. -/
def backendWeight (b : BackendRef) : Nat :=
  b.weight.getD 1

/-- Modelled from the spec (section 4.3): the weighted-cluster action of a
rule — one (cluster name, weight) pair per backend reference, the weight
carried through verbatim. -/
def weightedClusters (routeNS : String) (backends : List BackendRef) :
    List (String × Nat) :=
  backends.map (fun b =>
    (clusterName (b.ns.getD routeNS) b.name b.port, backendWeight b))

/-- Modelled from the spec: a derived Envoy Route — a match predicate paired
with a weighted-cluster action. -/
structure EnvoyRoute where
  pathMatch : PathMatchSpec
  action : List (String × Nat)
deriving DecidableEq, Repr

/-- Modelled from the spec (section 3): a VirtualHost — keyed by a hostname
set, holding an ordered list of Routes. -/
structure VirtualHost where
  hostnames : List String
  routes : List EnvoyRoute
deriving DecidableEq, Repr

/-- Modelled from the spec (section 3): a RouteConfiguration — a name and an
ordered list of VirtualHosts. -/
structure RouteConfiguration where
  name : String
  virtualHosts : List VirtualHost
deriving DecidableEq, Repr

/-- Modelled from the spec (sections 3 and 4.4): a derived Cluster — the
deterministic name and the single logical endpoint address. -/
structure Cluster where
  name : String
  address : String
  port : Nat
deriving DecidableEq, Repr

/-- Modelled from the spec (section 3): the endpoint assignment for a
Cluster. -/
structure ClusterLoadAssignment where
  cluster : String
  address : String
  port : Nat
deriving DecidableEq, Repr

/-- Modelled from the spec (sections 4.5 and 6): the translator's sole
output artifact — a mapping from resource kind to the ordered list of
resources of that kind. -/
structure ResourceMap where
  listeners : List EnvoyListener
  routeConfigs : List RouteConfiguration
  clusters : List Cluster
  loadAssignments : List ClusterLoadAssignment
deriving DecidableEq, Repr

/-- Modelled from the spec (section 4.3): whether one parent reference of an
HTTPRoute targets the given Gateway and listener. -/
def parentRefMatches (gw : Gateway) (l : ListenerSpec) (r : HTTPRoute)
    (p : ParentRef) : Bool :=
  p.name == gw.name && (p.ns.getD r.ns) == gw.ns &&
    (p.sectionName.isNone || p.sectionName == some l.name)

/-- Modelled from the spec (section 4.3): hostname intersection — exact
match, or one of the two sides is empty/wildcard. -/
def hostnamesIntersect (lh : Option String) (hs : List String) : Bool :=
  match lh with
  | none => true
  | some h => hs.isEmpty || hs.any (fun x => x == h || x == "*" || h == "*")

/-- Modelled from the spec (section 4.3): whether an HTTPRoute attaches to
the given Gateway listener. -/
def routeAttachedTo (gw : Gateway) (l : ListenerSpec) (r : HTTPRoute) : Bool :=
  r.parentRefs.any (parentRefMatches gw l r) &&
    hostnamesIntersect l.hostname r.hostnames

/-- Modelled from the spec (section 4.3): the (namespace, name) sort key of
an HTTPRoute. -/
def routeKey (r : HTTPRoute) : String :=
  r.ns ++ "/" ++ r.name

/-- Insertion step of the deterministic (namespace, name) ordering of
matching routes. -/
def insertRoute (r : HTTPRoute) : List HTTPRoute → List HTTPRoute
  | [] => [r]
  | x :: xs =>
    if routeKey r ≤ routeKey x then r :: x :: xs else x :: insertRoute r xs

/-- Modelled from the spec (section 4.3): sort routes in ascending
(namespace, name) order for determinism. -/
def sortRoutes (l : List HTTPRoute) : List HTTPRoute :=
  l.foldr insertRoute []

/-- Modelled from the spec (section 4.3): the HTTPRoutes attached to a
listener, in ascending (namespace, name) order. -/
def matchingRoutes (st : ClusterState) (gw : Gateway) (l : ListenerSpec) :
    List HTTPRoute :=
  sortRoutes (st.httpRoutes.filter (routeAttachedTo gw l))

/-- Modelled from the spec (section 4.3): translate one HTTPRoute's rules to
Envoy Routes in declared order. -/
def routeRulesToEnvoy (r : HTTPRoute) : List EnvoyRoute :=
  r.rules.map (fun rule =>
    { pathMatch := rule.pathMatch,
      action := weightedClusters r.ns rule.backends })

/-- Modelled from the spec (section 4.3): merge a route's Envoy Routes into
the VirtualHost for its hostname set, creating the VirtualHost in
first-seen order when absent. -/
def addRoutesToVHosts (vhs : List VirtualHost) (hs : List String)
    (rts : List EnvoyRoute) : List VirtualHost :=
  if vhs.any (fun v => v.hostnames == hs) then
    vhs.map (fun v =>
      if v.hostnames == hs then { v with routes := v.routes ++ rts } else v)
  else vhs ++ [{ hostnames := hs, routes := rts }]

/-- Modelled from the spec (section 4.3): one VirtualHost per distinct
hostname set, ordered by first-seen route order. -/
def buildVirtualHosts (routes : List HTTPRoute) : List VirtualHost :=
  routes.foldl (fun vhs r => addRoutesToVHosts vhs r.hostnames (routeRulesToEnvoy r)) []

/-- Modelled from the spec (sections 4.2 and 4.3): the RouteConfiguration
for one Gateway listener. -/
def buildRouteConfig (st : ClusterState) (gw : Gateway) (l : ListenerSpec) :
    RouteConfiguration :=
  { name := routeConfigName gw.ns gw.name l.name,
    virtualHosts := buildVirtualHosts (matchingRoutes st gw l) }

/-- Modelled from the spec (section 4.4): look up a Service in the cached
index by namespace and name. -/
def findService (st : ClusterState) (ns name : String) : Option Service :=
  st.services.find? (fun s => s.ns == ns && s.name == name)

/-- Modelled from the spec (section 4.2): look up a Secret in the cached
index by namespace and name. -/
def findSecret (st : ClusterState) (ns name : String) : Option Secret :=
  st.secrets.find? (fun s => s.ns == ns && s.name == name)

/-- The memoization step of the Cluster builder and the deduplication step
of the Aggregator (spec sections 4.4 and 4.5): keep the first-built
resource for each key, never adding a second resource with a key already
present. -/
def insertKeyed {α : Type} (key : α → String) (acc : List α) (x : α) :
    List α :=
  if acc.any (fun y => key y == key x) then acc else acc ++ [x]

/-- Modelled from the spec (section 4.5): deduplicate a resource list by
name, keeping the first-built instance, preserving order. -/
def dedupByKey {α : Type} (key : α → String) (l : List α) : List α :=
  l.foldl (insertKeyed key) []

/-- Modelled from the spec (section 4.4): materialize the Cluster for one
resolved backend (namespace, name, port): the deterministic name and the
Service's cluster-internal address as the single logical endpoint. -/
def mkCluster (st : ClusterState) (t : String × String × Nat) : Cluster :=
  { name := clusterName t.1 t.2.1 t.2.2,
    address := ((findService st t.1 t.2.1).map Service.clusterIP).getD "",
    port := t.2.2 }

/-- Modelled from the spec (section 4.3): every resolved backend reference
(namespace, name, port) reachable from the Gateway, in deterministic
listener/route/rule order. -/
def gatewayBackends (st : ClusterState) (gw : Gateway) :
    List (String × String × Nat) :=
  gw.listeners.flatMap (fun l =>
    (matchingRoutes st gw l).flatMap (fun r =>
      r.rules.flatMap (fun rule =>
        rule.backends.map (fun b => (b.ns.getD r.ns, b.name, b.port)))))

/-- Modelled from the spec (section 4.4): the memoized Cluster builder —
each backend's Cluster is built once; a backend whose deterministic name
was already built is returned from the lookup table, not rebuilt. -/
def buildAllClusters (st : ClusterState) (gw : Gateway) : List Cluster :=
  (gatewayBackends st gw).foldl
    (fun acc t => insertKeyed Cluster.name acc (mkCluster st t)) []

/-- Modelled from the spec (section 7): the structured translation error
taxonomy — not-found, unauthorized-reference, with the offending object
identified. -/
inductive TransError where
  | unauthorizedRef (fromNS fromKind toNS toKind toName : String)
  | notFound (kind ns name : String)
  | portNotFound (ns name : String) (port : Nat)
deriving DecidableEq, Repr

/-- Modelled from the spec (sections 4.1 and 4.3): validate one backend
reference of a route — cross-namespace references must be authorized by a
ReferenceGrant, the Service must resolve, and the port must exist. -/
def checkBackend (st : ClusterState) (r : HTTPRoute) (b : BackendRef) :
    Option TransError :=
  let svcNS := b.ns.getD r.ns
  if svcNS != r.ns &&
      !(Authorize st.referenceGrants r.ns "HTTPRoute" svcNS "Service" b.name) then
    some (TransError.unauthorizedRef r.ns "HTTPRoute" svcNS "Service" b.name)
  else
    match findService st svcNS b.name with
    | none => some (TransError.notFound "Service" svcNS b.name)
    | some svc =>
      if svc.ports.any (fun p => p.2 == b.port) then none
      else some (TransError.portNotFound svcNS b.name b.port)

/-- Modelled from the spec (sections 4.1 and 4.2): validate a listener's TLS
certificate reference — cross-namespace references must be authorized by a
ReferenceGrant and the Secret must resolve. -/
def checkListenerTLS (st : ClusterState) (gw : Gateway) (l : ListenerSpec) :
    Option TransError :=
  match l.tls with
  | none => none
  | some ref =>
    let certNS := ref.ns.getD gw.ns
    if certNS != gw.ns &&
        !(Authorize st.referenceGrants gw.ns "Gateway" certNS "Secret" ref.name) then
      some (TransError.unauthorizedRef gw.ns "Gateway" certNS "Secret" ref.name)
    else
      match findSecret st certNS ref.name with
      | none => some (TransError.notFound "Secret" certNS ref.name)
      | some _ => none

/-- Modelled from the spec (sections 4.1-4.4): the first reference failure
anywhere in the Gateway's listeners and attached routes, if any.  Any such
failure aborts translation of the whole Gateway. -/
def checkReferences (st : ClusterState) (gw : Gateway) : Option TransError :=
  (gw.listeners.findSome? (fun l =>
    match checkListenerTLS st gw l with
    | some e => some e
    | none =>
      (matchingRoutes st gw l).findSome? (fun r =>
        r.rules.findSome? (fun rule =>
          rule.backends.findSome? (checkBackend st r)))))

/-- Modelled from the spec (section 4.5): the Aggregator — drive the
builders, collect all produced resources, deduplicate by name within each
kind, and return the mapping from resource kind to resources. -/
def buildResourceMap (st : ClusterState) (gw : Gateway) : ResourceMap :=
  let clusters := buildAllClusters st gw
  { listeners := dedupByKey EnvoyListener.name (buildListeners gw),
    routeConfigs :=
      dedupByKey RouteConfiguration.name
        (gw.listeners.map (buildRouteConfig st gw)),
    clusters := dedupByKey Cluster.name clusters,
    loadAssignments :=
      dedupByKey ClusterLoadAssignment.cluster
        (clusters.map (fun c =>
          { cluster := c.name, address := c.address, port := c.port })) }

/-- Modelled from the spec (sections 2, 6 and 7): the whole translation —
a pure, synchronous function from the point-in-time index and the target
Gateway to either a structured error or the full resource mapping; any
reference failure aborts the whole Gateway with no partial output. -/
def TranslateGatewayToXDS (st : ClusterState) (gw : Gateway) :
    Except TransError ResourceMap :=
  match checkReferences st gw with
  | some e => Except.error e
  | none => Except.ok (buildResourceMap st gw)

/-- The snapshot built at the serialization boundary (main.go
`generateXDS`, lines 137-145): the resource mapping wrapped with a version
string taken from the wall clock (`time.Now().Format(time.RFC3339Nano)`). -/
structure Snapshot where
  version : String
  resources : ResourceMap
deriving DecidableEq, Repr

/-- Embedding of the value computed by `generateXDS` (main.go lines
137-145) on its success path: `cache.NewSnapshot(version, resources)` with
the version taken from the current time, passed in here explicitly. -/
def generateXDS (resources : ResourceMap) (now : String) : Snapshot :=
  { version := now, resources := resources }

/-- Inserting through the memoization/dedup step preserves the property
that the keys of the accumulated resources are pairwise distinct. -/
theorem insertKeyed_map_key_nodup {α : Type} (key : α → String)
    (acc : List α) (x : α) (h : (acc.map key).Nodup) :
    ((insertKeyed key acc x).map key).Nodup := by
  unfold insertKeyed
  split
  · exact h
  · rename_i hc
    simp only [List.any_eq_true, beq_iff_eq, not_exists, not_and] at hc
    rw [List.map_append, List.nodup_append]
    refine ⟨h, List.nodup_singleton _, ?_⟩
    intro a ha hb
    simp only [List.map_cons, List.map_nil, List.mem_singleton] at hb
    subst hb
    rw [List.mem_map] at ha
    obtain ⟨y, hy, hky⟩ := ha
    exact hc y hy hky

/-- Folding the memoization/dedup step over any input list preserves
distinctness of the accumulated keys. -/
theorem foldl_insertKeyed_nodup {α β : Type} (key : α → String) (g : β → α) :
    ∀ (l : List β) (acc : List α), (acc.map key).Nodup →
      ((l.foldl (fun a b => insertKeyed key a (g b)) acc).map key).Nodup
  | [], _, h => h
  | b :: l, acc, h => by
    rw [List.foldl_cons]
    exact foldl_insertKeyed_nodup key g l _
      (insertKeyed_map_key_nodup key acc (g b) h)

/-- The deduplicated resource list has pairwise distinct keys. -/
theorem dedupByKey_map_key_nodup {α : Type} (key : α → String) (l : List α) :
    ((dedupByKey key l).map key).Nodup :=
  foldl_insertKeyed_nodup key (fun a => a) l [] (by simp)

/-- A key already present in the accumulator stays present through the
memoizing fold. -/
theorem mem_map_key_foldl_insertKeyed {α β : Type} (key : α → String)
    (g : β → α) :
    ∀ (l : List β) (acc : List α) (s : String), s ∈ acc.map key →
      s ∈ (l.foldl (fun a b => insertKeyed key a (g b)) acc).map key
  | [], _, _, h => h
  | b :: l, acc, s, h => by
    rw [List.foldl_cons]
    apply mem_map_key_foldl_insertKeyed key g l
    unfold insertKeyed
    split
    · exact h
    · rw [List.map_append]
      exact List.mem_append_left _ h

/-- Every input's key appears among the keys produced by the memoizing
fold: the resource is built on first sight and returned from the lookup
table afterwards, so it is present either way. -/
theorem key_mem_foldl_insertKeyed {α β : Type} (key : α → String)
    (g : β → α) :
    ∀ (l : List β) (acc : List α) (b : β), b ∈ l →
      key (g b) ∈ (l.foldl (fun a x => insertKeyed key a (g x)) acc).map key
  | [], _, b, h => absurd h (List.not_mem_nil b)
  | x :: l, acc, b, h => by
    rw [List.foldl_cons]
    rcases List.mem_cons.mp h with h1 | h2
    · subst h1
      apply mem_map_key_foldl_insertKeyed key g l
      unfold insertKeyed
      split
      · rename_i hc
        simp only [List.any_eq_true, beq_iff_eq] at hc
        obtain ⟨y, hy, hky⟩ := hc
        rw [List.mem_map]
        exact ⟨y, hy, hky⟩
      · rw [List.map_append]
        exact List.mem_append_right _ (by simp)
    · exact key_mem_foldl_insertKeyed key g l (insertKeyed key acc (g x)) b h2

/-- The worked example of spec section 8: Service `svc1` in `ns1` with port
8080. -/
def demoService : Service :=
  { ns := "ns1", name := "svc1", clusterIP := "10.0.0.1",
    ports := [("http", 8080)] }

/-- The worked example of spec section 8: HTTPRoute `r1` attached to
Gateway `g1`, listener `http`, hostname `example.com`, one prefix-`/` rule
routing to `svc1:8080`. -/
def demoRoute : HTTPRoute :=
  { ns := "ns1", name := "r1",
    parentRefs := [{ ns := none, name := "g1", sectionName := some "http" }],
    hostnames := ["example.com"],
    rules := [{ pathMatch := { kind := PathKind.startsWith, value := "/" },
                backends := [{ ns := none, name := "svc1", port := 8080,
                               weight := none }] }] }

/-- The worked example of spec section 8: the cached index holding `svc1`
and `r1`. -/
def demoState : ClusterState :=
  { services := [demoService], secrets := [], httpRoutes := [demoRoute],
    referenceGrants := [] }

/-- The worked example of spec section 8: Gateway `g1` in `ns1` with one
listener `http` on port 80, no TLS. -/
def demoGateway : Gateway :=
  { ns := "ns1", name := "g1",
    listeners := [{ name := "http", port := 80, protocol := "HTTP",
                    hostname := none, tls := none }] }

example : checkReferences demoState demoGateway = none := by decide
example : TranslateGatewayToXDS demoState demoGateway
    = Except.ok (buildResourceMap demoState demoGateway) := rfl
example : (buildResourceMap demoState demoGateway).clusters
    = [{ name := "ns1/svc1/8080", address := "10.0.0.1", port := 8080 }] := by decide
example : gatewayBackends demoState demoGateway = [("ns1", "svc1", 8080)] := by decide

/-- A Gateway with two listener specs sharing the name `http` (ports 80 and
81): the aggregator keys Listener resources by name, so translation merges
them into one resource. -/
def dupListenerGateway : Gateway :=
  { ns := "ns1", name := "g1",
    listeners := [{ name := "http", port := 80, protocol := "HTTP",
                    hostname := none, tls := none },
                  { name := "http", port := 81, protocol := "HTTP",
                    hostname := none, tls := none }] }

/-- C5: `Authorize(fromNS, fromKind, toNS, toKind, toName)` returns true iff
either `fromNS = toNS` (same-namespace references are always authorized
without consulting grants), or some ReferenceGrant in namespace `toNS` has
declared source namespace/kind `fromNS`/`fromKind`, declared target kind
`toKind`, and either no declared target name or a declared target name
equal to `toName`. -/
theorem c5_authorize_iff (grants : List ReferenceGrant)
    (fromNS fromKind toNS toKind toName : String) :
    Authorize grants fromNS fromKind toNS toKind toName = true ↔
      (fromNS = toNS ∨
        ∃ g ∈ grants, g.ns = toNS ∧ g.fromNamespace = fromNS ∧
          g.fromKind = fromKind ∧ g.toKind = toKind ∧
          (g.toName = none ∨ g.toName = some toName)) := by
  unfold Authorize grantMatches
  simp only [Bool.or_eq_true, beq_iff_eq, List.any_eq_true, List.mem_filter,
    Bool.and_eq_true, Option.isNone_iff_eq_none]
  constructor
  · rintro (h | ⟨g, ⟨hg, hns⟩, ⟨⟨hfns, hfk⟩, htk⟩, hname⟩)
    · exact Or.inl h
    · exact Or.inr ⟨g, hg, hns, hfns, hfk, htk, hname⟩
  · rintro (h | ⟨g, hg, hns, hfns, hfk, htk, hname⟩)
    · exact Or.inl h
    · exact Or.inr ⟨g, ⟨hg, hns⟩, ⟨⟨hfns, hfk⟩, htk⟩, hname⟩

/-- When the keys of the accumulator followed by the input are pairwise
distinct, the memoizing fold deduplicates nothing: it returns the
accumulator followed by the input unchanged. -/
theorem foldl_insertKeyed_eq_append {α : Type} (key : α → String) :
    ∀ (l acc : List α), ((acc ++ l).map key).Nodup →
      l.foldl (insertKeyed key) acc = acc ++ l
  | [], acc, _ => by simp
  | x :: xs, acc, h => by
    have hneg : ¬(acc.any (fun y => key y == key x) = true) := by
      intro hc
      simp only [List.any_eq_true, beq_iff_eq] at hc
      obtain ⟨y, hy, hky⟩ := hc
      rw [List.map_append, List.nodup_append] at h
      exact h.2.2 (List.mem_map_of_mem key hy) (by rw [hky]; simp)
    have hx : insertKeyed key acc x = acc ++ [x] := by
      simp only [insertKeyed]
      rw [if_neg hneg]
    have h' : (((acc ++ [x]) ++ xs).map key).Nodup := by
      rw [List.append_assoc]
      simpa using h
    rw [List.foldl_cons, hx,
      foldl_insertKeyed_eq_append key xs (acc ++ [x]) h', List.append_assoc]
    simp

/-- Deduplication is the identity on a resource list whose keys are already
pairwise distinct. -/
theorem dedupByKey_eq_self {α : Type} (key : α → String) (l : List α)
    (h : (l.map key).Nodup) : dedupByKey key l = l := by
  have h0 : ((([] : List α) ++ l).map key).Nodup := by simpa using h
  simpa [dedupByKey] using foldl_insertKeyed_eq_append key l [] h0

/-- Surrounding distinct strings with the same fixed leading and trailing
pieces keeps them distinct. -/
theorem string_affix_injective (pre suf : String) :
    Function.Injective (fun s => pre ++ s ++ suf) := by
  intro x y h
  have hd := congrArg String.data h
  simp only [String.data_append] at hd
  have h1 := List.append_cancel_right hd
  have h2 := List.append_cancel_left h1
  cases x
  cases y
  exact congrArg String.mk h2

/-- C6 (amended): for every Gateway whose listener specs bear pairwise
distinct names — as the Gateway API requires — translation yields exactly N
Listener resources for N listener specs, each carrying the port and
protocol of the corresponding spec, copied verbatim.  Listener resources
are keyed by name, so two specs sharing a name would be merged by the
aggregator (see the counterexample). -/
theorem c6_listeners_exact (st : ClusterState) (gw : Gateway)
    (m : ResourceMap) (hn : (gw.listeners.map ListenerSpec.name).Nodup)
    (h : TranslateGatewayToXDS st gw = Except.ok m) :
    m.listeners.length = gw.listeners.length ∧
    m.listeners.map EnvoyListener.port
      = gw.listeners.map ListenerSpec.port ∧
    m.listeners.map EnvoyListener.protocol
      = gw.listeners.map ListenerSpec.protocol := by
  have hm : m = buildResourceMap st gw := by
    unfold TranslateGatewayToXDS at h
    split at h
    · cases h
    · injection h with h
      exact h.symm
  subst hm
  have hcomp : (buildListeners gw).map EnvoyListener.name
      = (gw.listeners.map ListenerSpec.name).map
          (fun s => gw.ns ++ "/" ++ gw.name ++ "/" ++ s ++ "/listener") := by
    simp [buildListeners, buildListener, listenerResourceName, List.map_map,
      Function.comp]
  have hnames : ((buildListeners gw).map EnvoyListener.name).Nodup := by
    rw [hcomp]
    exact hn.map
      (string_affix_injective (gw.ns ++ "/" ++ gw.name ++ "/") "/listener")
  have hded : (buildResourceMap st gw).listeners = buildListeners gw := by
    simp only [buildResourceMap]
    exact dedupByKey_eq_self EnvoyListener.name (buildListeners gw) hnames
  rw [hded]
  refine ⟨?_, ?_, ?_⟩ <;>
    simp [buildListeners, buildListener, List.map_map, Function.comp]

/-- C6 witness: on the spec's worked example (one listener `http` on port
80), translation yields exactly one Listener resource with port 80 copied
verbatim. -/
theorem c6_listeners_exact_witness :
    (buildResourceMap demoState demoGateway).listeners.length
      = demoGateway.listeners.length ∧
    (buildResourceMap demoState demoGateway).listeners.map EnvoyListener.port
      = demoGateway.listeners.map ListenerSpec.port :=
  ⟨(c6_listeners_exact demoState demoGateway _ (by decide) rfl).1,
   (c6_listeners_exact demoState demoGateway _ (by decide) rfl).2.1⟩

/-- C6 counterexample: a Gateway with two listener specs that share the
name `http` translates successfully, yet the returned mapping holds one
Listener resource, not two — the aggregator deduplicates Listener
resources by name, refuting the claim as stated for N = 2. -/
theorem c6_dup_name_counterexample :
    TranslateGatewayToXDS demoState dupListenerGateway
      = Except.ok (buildResourceMap demoState dupListenerGateway) ∧
    dupListenerGateway.listeners.length = 2 ∧
    (buildResourceMap demoState dupListenerGateway).listeners.length = 1 := by
  refine ⟨rfl, rfl, ?_⟩
  decide

/-- C8: the weights of a rule's backend references are carried into the
weighted-cluster action verbatim — an explicit weight `w` yields exactly
`w`, the total is the declared sum, and when every weight on the rule is
omitted each backend receives weight 1. -/
theorem c8_weights_verbatim (routeNS : String) (bs : List BackendRef) :
    ((weightedClusters routeNS bs).map Prod.snd = bs.map backendWeight) ∧
    (∀ b ∈ bs, ∀ w, b.weight = some w →
      (clusterName (b.ns.getD routeNS) b.name b.port, w)
        ∈ weightedClusters routeNS bs) ∧
    (((weightedClusters routeNS bs).map Prod.snd).sum
      = (bs.map backendWeight).sum) ∧
    ((∀ b ∈ bs, b.weight = none) →
      ∀ p ∈ weightedClusters routeNS bs, p.2 = 1) := by
  refine ⟨?_, ?_, ?_, ?_⟩
  · simp [weightedClusters, List.map_map, Function.comp]
  · intro b hb w hw
    rw [weightedClusters, List.mem_map]
    exact ⟨b, hb, by simp [backendWeight, hw]⟩
  · have h : (weightedClusters routeNS bs).map Prod.snd = bs.map backendWeight := by
      simp [weightedClusters, List.map_map, Function.comp]
    rw [h]
  · intro h p hp
    rw [weightedClusters, List.mem_map] at hp
    obtain ⟨b, hb, rfl⟩ := hp
    simp [backendWeight, h b hb]

/-- C7: in the output graph returned by translation, every resource name is
unique within its resource kind; and the memoized Cluster builder yields
exactly one Cluster for each referenced backend, never duplicates. -/
theorem c7_unique_names (st : ClusterState) (gw : Gateway) (m : ResourceMap)
    (h : TranslateGatewayToXDS st gw = Except.ok m) :
    (m.listeners.map EnvoyListener.name).Nodup ∧
    (m.routeConfigs.map RouteConfiguration.name).Nodup ∧
    (m.clusters.map Cluster.name).Nodup ∧
    (m.loadAssignments.map ClusterLoadAssignment.cluster).Nodup ∧
    ∀ t ∈ gatewayBackends st gw,
      ((buildAllClusters st gw).map Cluster.name).count
        (clusterName t.1 t.2.1 t.2.2) = 1 := by
  have hm : m = buildResourceMap st gw := by
    unfold TranslateGatewayToXDS at h
    split at h
    · cases h
    · injection h with h
      exact h.symm
  subst hm
  refine ⟨?_, ?_, ?_, ?_, ?_⟩
  · exact dedupByKey_map_key_nodup _ _
  · exact dedupByKey_map_key_nodup _ _
  · exact dedupByKey_map_key_nodup _ _
  · exact dedupByKey_map_key_nodup _ _
  · intro t ht
    have hnd : ((buildAllClusters st gw).map Cluster.name).Nodup :=
      foldl_insertKeyed_nodup Cluster.name (mkCluster st)
        (gatewayBackends st gw) [] (by simp)
    have hmem : clusterName t.1 t.2.1 t.2.2
        ∈ (buildAllClusters st gw).map Cluster.name :=
      key_mem_foldl_insertKeyed Cluster.name (mkCluster st)
        (gatewayBackends st gw) [] t ht
    exact List.count_eq_one_of_mem hnd hmem

/-- C7 witness: on the spec's worked example, translation succeeds, names
are unique in every kind, and the single backend yields exactly one
Cluster. -/
theorem c7_unique_names_witness :
    ((buildResourceMap demoState demoGateway).clusters.map Cluster.name).Nodup ∧
    ((buildAllClusters demoState demoGateway).map Cluster.name).count
      (clusterName "ns1" "svc1" 8080) = 1 := by
  have h := c7_unique_names demoState demoGateway
    (buildResourceMap demoState demoGateway) rfl
  exact ⟨h.2.2.1, h.2.2.2.2 ("ns1", "svc1", 8080) (by decide)⟩

/-- C4: translation is a pure function of the input snapshot — two runs over
an unchanged snapshot return the same resource mapping, and the snapshots
built from them differ only in the enclosing version string taken from the
clock at the serialization boundary. -/
theorem c4_deterministic_output (st : ClusterState) (gw : Gateway)
    (m1 m2 : ResourceMap) (t1 t2 : String)
    (h1 : TranslateGatewayToXDS st gw = Except.ok m1)
    (h2 : TranslateGatewayToXDS st gw = Except.ok m2) :
    m1 = m2 ∧
    (generateXDS m1 t1).resources = (generateXDS m2 t2).resources ∧
    (generateXDS m1 t1).version = t1 ∧ (generateXDS m2 t2).version = t2 := by
  have h : Except.ok (ε := TransError) m1 = Except.ok m2 := h1.symm.trans h2
  injection h with h
  exact ⟨h, by simp [generateXDS, h], rfl, rfl⟩

/-- C4 witness: two runs over the worked example with different clock values
agree on the resource mapping. -/
theorem c4_deterministic_output_witness :
    (generateXDS (buildResourceMap demoState demoGateway)
        "2024-01-01T00:00:00Z").resources
      = (generateXDS (buildResourceMap demoState demoGateway)
          "2024-01-02T00:00:00Z").resources :=
  (c4_deterministic_output demoState demoGateway
    (buildResourceMap demoState demoGateway)
    (buildResourceMap demoState demoGateway)
    "2024-01-01T00:00:00Z" "2024-01-02T00:00:00Z" rfl rfl).2.1

/-- C8 witness: backends `{A:2, B:1}` yield weights exactly `[2, 1]`, and a
rule whose only backend omits its weight receives weight 1. -/
theorem c8_weights_verbatim_witness :
    ((weightedClusters "ns1"
        [{ ns := none, name := "A", port := 80, weight := some 2 },
         { ns := none, name := "B", port := 80, weight := some 1 }]).map
      Prod.snd = [2, 1]) ∧
    (∀ p ∈ weightedClusters "ns1"
        [{ ns := none, name := "A", port := 80, weight := none }], p.2 = 1) := by
  constructor
  · have h := (c8_weights_verbatim "ns1"
      [{ ns := none, name := "A", port := 80, weight := some 2 },
       { ns := none, name := "B", port := 80, weight := some 1 }]).1
    rw [h]
    decide
  · exact (c8_weights_verbatim "ns1"
      [{ ns := none, name := "A", port := 80, weight := none }]).2.2.2
      (by decide)

/-- C1: the claim states that the initial cache sync of every collection the
translator reads completes before translation.  In the source, the cache
sync wait does precede translation in program order, but `main.go` waits
only for the Services, Gateways and HTTPRoutes informers: the `HasSynced`
entries for Namespaces, Secrets and ReferenceGrants are commented out, even
though their listers are handed to the translator, so those lookups can
spuriously report not-found.  This theorem exhibits the gap. -/
theorem c1_cache_sync_gap :
    List.indexOf MainStep.waitForCacheSync mainStepOrder
      < List.indexOf MainStep.translateGateway mainStepOrder ∧
    Collection.services ∈ syncWaitedCollections ∧
    Collection.gateways ∈ syncWaitedCollections ∧
    Collection.httpRoutes ∈ syncWaitedCollections ∧
    Collection.namespaces ∈ translatorListerCollections ∧
    Collection.namespaces ∉ syncWaitedCollections ∧
    Collection.secrets ∈ translatorListerCollections ∧
    Collection.secrets ∉ syncWaitedCollections ∧
    Collection.referenceGrants ∈ translatorListerCollections ∧
    Collection.referenceGrants ∉ syncWaitedCollections := by
  decide

/-- C2: the snapshot is written to the output file only when
`snapshot.Consistent()` succeeds; when the check fails the program reports
the inconsistency and exits with status 1 without writing the file. -/
theorem c2_consistency_gate :
    (∀ e : Env, (runMain e).fileWritten = true → e.consistentOk = true) ∧
    (∀ e : Env, e.flagsOk = true → e.userOk = true → e.configOk = true →
      e.gwClientOk = true → e.gatewayGetOk = true → e.translateOk = true →
      e.snapshotOk = true → e.consistentOk = false →
      (runMain e).exited = true ∧ (runMain e).exitCode = 1 ∧
      (runMain e).fileWritten = false ∧
      (runMain e).exitSite = some ExitSite.consistent) := by
  constructor <;>
  · intro e
    obtain ⟨a, b, c, d, f, g, h, i, j, k, l⟩ := e
    revert a b c d f g h i j k l
    decide

/-- C2 witness: the consistency gate at a concrete run where only the
consistency check fails. -/
theorem c2_consistency_gate_witness :
    (runMain { flagsOk := true, userOk := true, configOk := true,
               kubeClientOk := true, gwClientOk := true, gatewayGetOk := true,
               translateOk := true, snapshotOk := true, consistentOk := false,
               marshalOk := true, writeOk := true }).fileWritten = false ∧
    (runMain { flagsOk := true, userOk := true, configOk := true,
               kubeClientOk := true, gwClientOk := true, gatewayGetOk := true,
               translateOk := true, snapshotOk := true, consistentOk := false,
               marshalOk := true, writeOk := true }).exitSite
      = some ExitSite.consistent :=
  ⟨(c2_consistency_gate.2 _ rfl rfl rfl rfl rfl rfl rfl rfl).2.2.1,
   (c2_consistency_gate.2 _ rfl rfl rfl rfl rfl rfl rfl rfl).2.2.2⟩

/-- C3: an error arising at the Gateway fetch, the translation, the snapshot
generation, the consistency check or the JSON marshaling makes the program
exit with status 1 without writing the output file; conversely the file is
written only when every one of those steps succeeded. -/
theorem c3_all_errors_abort :
    (∀ e : Env, (runMain e).fileWritten = true →
      e.gatewayGetOk = true ∧ e.translateOk = true ∧ e.snapshotOk = true ∧
      e.consistentOk = true ∧ e.marshalOk = true) ∧
    (∀ e : Env, e.flagsOk = true → e.userOk = true → e.configOk = true →
      e.gwClientOk = true →
      (e.gatewayGetOk = false ∨
       (e.gatewayGetOk = true ∧ e.translateOk = false) ∨
       (e.gatewayGetOk = true ∧ e.translateOk = true ∧
         e.snapshotOk = false) ∨
       (e.gatewayGetOk = true ∧ e.translateOk = true ∧ e.snapshotOk = true ∧
         e.consistentOk = false) ∨
       (e.gatewayGetOk = true ∧ e.translateOk = true ∧ e.snapshotOk = true ∧
         e.consistentOk = true ∧ e.marshalOk = false)) →
      (runMain e).exited = true ∧ (runMain e).exitCode = 1 ∧
      (runMain e).fileWritten = false) := by
  constructor <;>
  · intro e
    obtain ⟨a, b, c, d, f, g, h, i, j, k, l⟩ := e
    revert a b c d f g h i j k l
    decide

/-- C3 witness: a concrete run failing at the marshaling step exits with
status 1 and writes nothing. -/
theorem c3_all_errors_abort_witness :
    (runMain { flagsOk := true, userOk := true, configOk := true,
               kubeClientOk := true, gwClientOk := true, gatewayGetOk := true,
               translateOk := true, snapshotOk := true, consistentOk := true,
               marshalOk := false, writeOk := true }).exitCode = 1 ∧
    (runMain { flagsOk := true, userOk := true, configOk := true,
               kubeClientOk := true, gwClientOk := true, gatewayGetOk := true,
               translateOk := true, snapshotOk := true, consistentOk := true,
               marshalOk := false, writeOk := true }).fileWritten = false :=
  ⟨(c3_all_errors_abort.2 _ rfl rfl rfl rfl
      (Or.inr (Or.inr (Or.inr (Or.inr ⟨rfl, rfl, rfl, rfl, rfl⟩))))).2.1,
   (c3_all_errors_abort.2 _ rfl rfl rfl rfl
      (Or.inr (Or.inr (Or.inr (Or.inr ⟨rfl, rfl, rfl, rfl, rfl⟩))))).2.2⟩

set_option synthInstance.maxSize 4096 in
set_option maxHeartbeats 1000000 in
/-- C9: a failure creating the Kubernetes client prints the error but does
not terminate — execution continues with a nil client all the way through a
successful run — whereas each of the other initialization failures (flags,
current user, kubeconfig, Gateway API clientset) exits with status 1
immediately. -/
theorem c9_kube_client_continues :
    (∀ e : Env, e.flagsOk = true → e.userOk = true → e.configOk = true →
      e.kubeClientOk = false → e.gwClientOk = true → e.gatewayGetOk = true →
      e.translateOk = true → e.snapshotOk = true → e.consistentOk = true →
      e.marshalOk = true → e.writeOk = true →
      (runMain e).exited = false ∧ (runMain e).kubeClientNil = true ∧
      (runMain e).fileWritten = true) ∧
    (∀ e : Env,
      (e.flagsOk = false →
        (runMain e).exited = true ∧ (runMain e).exitCode = 1) ∧
      (e.flagsOk = true → e.userOk = false →
        (runMain e).exited = true ∧ (runMain e).exitCode = 1) ∧
      (e.flagsOk = true → e.userOk = true → e.configOk = false →
        (runMain e).exited = true ∧ (runMain e).exitCode = 1) ∧
      (e.flagsOk = true → e.userOk = true → e.configOk = true →
        e.gwClientOk = false →
        (runMain e).exited = true ∧ (runMain e).exitCode = 1)) := by
  constructor <;>
  · intro e
    obtain ⟨a, b, c, d, f, g, h, i, j, k, l⟩ := e
    revert a b c d f g h i j k l
    decide

/-- C9 witness: a concrete run whose only failure is the Kubernetes client
creation completes, with a nil client, and writes the file. -/
theorem c9_kube_client_continues_witness :
    (runMain { flagsOk := true, userOk := true, configOk := true,
               kubeClientOk := false, gwClientOk := true, gatewayGetOk := true,
               translateOk := true, snapshotOk := true, consistentOk := true,
               marshalOk := true, writeOk := true }).exited = false ∧
    (runMain { flagsOk := true, userOk := true, configOk := true,
               kubeClientOk := false, gwClientOk := true, gatewayGetOk := true,
               translateOk := true, snapshotOk := true, consistentOk := true,
               marshalOk := true, writeOk := true }).kubeClientNil = true :=
  ⟨(c9_kube_client_continues.1 _ rfl rfl rfl rfl rfl rfl rfl rfl rfl
      rfl rfl).1,
   (c9_kube_client_continues.1 _ rfl rfl rfl rfl rfl rfl rfl rfl rfl
      rfl rfl).2.1⟩

/-- C10: whenever `generateXDS` returns (rather than exiting from inside on
a snapshot-construction failure), its error result is nil, so the caller's
error branch after the call is never taken. -/
theorem c10_generateXDS_nil_error :
    (∀ (r : Except String Unit) (v : Unit) (err : Option String),
      generateXDSRun r = GenResult.returned v err → err = none) ∧
    (∀ e : Env, (runMain e).exitSite ≠ some ExitSite.generateXDSErrBranch) := by
  constructor
  · intro r v err h
    cases r with
    | error s => exact absurd h (by simp [generateXDSRun])
    | ok u =>
      unfold generateXDSRun at h
      injection h with h1 h2
      exact h2.symm
  · intro e
    obtain ⟨a, b, c, d, f, g, h, i, j, k, l⟩ := e
    revert a b c d f g h i j k l
    decide

/-- C10 witness: `generateXDSRun` applied to a successful snapshot returns a
nil error, and a fully successful run never reaches the caller's error
branch. -/
theorem c10_generateXDS_nil_error_witness :
    (none : Option String) = none ∧
    (runMain { flagsOk := true, userOk := true, configOk := true,
               kubeClientOk := true, gwClientOk := true, gatewayGetOk := true,
               translateOk := true, snapshotOk := true, consistentOk := true,
               marshalOk := true, writeOk := true }).exitSite
      ≠ some ExitSite.generateXDSErrBranch :=
  ⟨c10_generateXDS_nil_error.1 (Except.ok ()) () none rfl,
   c10_generateXDS_nil_error.2 _⟩
